import Mathlib

/-!
Verification development for the tglogger repository.

The core of the program (src/handlers.py) maintains a global in-memory cache
`message_history` mapping message ids to tuples `(date, text, username)`,
guarded by a single asyncio lock, together with three event handlers
(`handle_received_message`, `handle_edited_message`, `handle_deleted_message`)
and a throttled retention sweep (`cleanup_old_messages`).  Here the mutable
globals are embedded as an explicit `LoggerState` record that is threaded
through pure translations of the handler bodies.  Wall-clock time
(`datetime.now()`) becomes an explicit `now : Nat` parameter counted in
seconds since the epoch; `strftime`/`strptime` with the fixed format
`%Y-%m-%d %H:%M:%S` become `fmtTime`/`parseTime` below.  The append-only
log files and the error log are embedded as a single list of `LogRecord`
values (one constructor per sink).  Exceptions escaping a handler body are
embedded as `Except String`: the only failure points of a body are the
unguarded Python attribute accesses (`event.chat_id`, `event.deleted_id`,
`event.message`, `event.message.id`), so those attributes are `Option`
fields of the event records and their access is fallible.  Attribute
accesses guarded by `hasattr` in the source are total here (`Option` with a
default).  The asyncio lock has no observable effect in this sequential
embedding and is not represented.
-/

namespace TgLogger

/-! ## Timestamps

The source stores `datetime.now().strftime('%Y-%m-%d %H:%M:%S')` strings and
the sweep re-parses them with `datetime.strptime` using the same format.
`fmtTime` renders an epoch-second count with the proleptic Gregorian
calendar (the same calendar Python `datetime` uses); `parseTime` inverts the
format, rejecting strings whose fields are not numeric or denote an invalid
date, as `strptime` does by raising `ValueError`.  Dates before 1970 are
rejected by `parseTime` because the embedding counts time as `Nat` seconds
since the epoch; the program only ever parses strings it produced itself
with `fmtTime`, which all denote post-1970 instants.
-/

/-- Zero-pad a natural number to two digits. -/
def pad2 (n : Nat) : String :=
  if n < 10 then "0" ++ toString n else toString n

/-- Zero-pad a natural number to four digits. -/
def pad4 (n : Nat) : String :=
  if n < 10 then "000" ++ toString n
  else if n < 100 then "00" ++ toString n
  else if n < 1000 then "0" ++ toString n
  else toString n

/-- Convert a count of days since 1970-01-01 to a Gregorian
`(year, month, day)` triple. -/
def civilFromDays (z : Nat) : Nat × Nat × Nat :=
  let n := z + 719468
  let era := n / 146097
  let doe := n % 146097
  let yoe := (doe - doe / 1460 + doe / 36524 - doe / 146096) / 365
  let y := yoe + era * 400
  let doy := doe - (365 * yoe + yoe / 4 - yoe / 100)
  let mp := (5 * doy + 2) / 153
  let d := doy - (153 * mp + 2) / 5 + 1
  let m := if mp < 10 then mp + 3 else mp - 9
  (if m ≤ 2 then y + 1 else y, m, d)

/-- Model of `datetime.now().strftime('%Y-%m-%d %H:%M:%S')` for an
epoch-second count. -/
def fmtTime (t : Nat) : String :=
  let days := t / 86400
  let secs := t % 86400
  let c := civilFromDays days
  pad4 c.1 ++ "-" ++ pad2 c.2.1 ++ "-" ++ pad2 c.2.2 ++ " " ++
    pad2 (secs / 3600) ++ ":" ++ pad2 (secs % 3600 / 60) ++ ":" ++ pad2 (secs % 60)

/-- Gregorian leap-year test. -/
def isLeap (y : Nat) : Bool :=
  (y % 4 == 0 && y % 100 != 0) || y % 400 == 0

/-- Number of days in a Gregorian month. -/
def daysInMonth (y m : Nat) : Nat :=
  if m = 2 then (if isLeap y then 29 else 28)
  else if m = 4 ∨ m = 6 ∨ m = 9 ∨ m = 11 then 30
  else 31

/-- Convert a Gregorian date (year at least 1970) to a count of days since
1970-01-01. -/
def daysFromCivil (y m d : Nat) : Nat :=
  let y1 := if m ≤ 2 then y - 1 else y
  let era := y1 / 400
  let yoe := y1 % 400
  let mp := if m > 2 then m - 3 else m + 9
  let doy := (153 * mp + 2) / 5 + d - 1
  let doe := yoe * 365 + yoe / 4 - yoe / 100 + doy
  era * 146097 + doe - 719468

/-- Split a character list at every occurrence of a separator character
(used below to split on the spaces, dashes and colons of the fixed
timestamp format). -/
def splitOnChar (sep : Char) : List Char → List (List Char)
  | [] => [[]]
  | c :: t =>
    match splitOnChar sep t with
    | [] => [[]]
    | h :: r => if c = sep then [] :: h :: r else (c :: h) :: r

/-- Read a run of decimal digits as a number. -/
def digitsValAux : List Char → Nat → Option Nat
  | [], acc => some acc
  | c :: t, acc =>
    if c.isDigit then digitsValAux t (acc * 10 + (c.toNat - 48)) else none

/-- The numeric value of a non-empty, all-digit character list. -/
def digitsVal : List Char → Option Nat
  | [] => none
  | c :: t => digitsValAux (c :: t) 0

/-- Model of `datetime.strptime(s, '%Y-%m-%d %H:%M:%S')`, returning epoch
seconds; `none` models `ValueError`. -/
def parseTime (s : String) : Option Nat :=
  match splitOnChar ' ' s.data with
  | [ds, ts] =>
    match splitOnChar '-' ds, splitOnChar ':' ts with
    | [ys, ms, dds], [hs, mins, ss] =>
      match digitsVal ys, digitsVal ms, digitsVal dds,
          digitsVal hs, digitsVal mins, digitsVal ss with
      | some y, some m, some d, some h, some mi, some se =>
        if 1970 ≤ y ∧ 1 ≤ m ∧ m ≤ 12 ∧ 1 ≤ d ∧ d ≤ daysInMonth y m ∧
            h < 24 ∧ mi < 60 ∧ se < 60 then
          some (daysFromCivil y m d * 86400 + h * 3600 + mi * 60 + se)
        else none
      | _, _, _, _, _, _ => none
    | _, _ => none
  | _ => none

/-! ## Data model -/

/-- A value stored in the `message_history` dictionary.  The handlers only
ever store 3-tuples `(date, text, username)`, but the source has reading and
sweeping branches for 2-tuples (an old on-disk format, per its comments) and
for values that are not tuples at all; `tuple2` and `other` represent those
shapes so that the branch structure of the source can be translated
faithfully. -/
inductive MsgData where
  | tuple3 (date text : String) (username : Option String)
  | tuple2 (date text : String)
  | other (value : String)
deriving DecidableEq, Repr

/-- One record appended to a log sink by `log_message` (constructors
`received`, `edited`, `deleted`, selected by the `action_type` argument) or
to the error sink by `log_error` (constructor `error`). -/
inductive LogRecord where
  | received (chat_id : Int) (chat_title : String) (message_id : Nat)
      (timestamp : String) (username : Option String) (text : String)
  | edited (chat_id : Int) (chat_title : String) (message_id : Nat)
      (timestamp : String) (username : Option String) (old_text new_text : String)
  | deleted (chat_id : Int) (chat_title : String) (message_id : Nat)
      (timestamp : String) (username : Option String) (text : String)
  | error (message : String)
deriving DecidableEq, Repr

/-- The mutable globals of the program: the `message_history` dictionary
(as an association list with `Nat` message-id keys), the
`cleanup_old_messages.last_cleanup_time` function attribute, and the
records appended to the log sinks so far. -/
structure LoggerState where
  message_history : List (Nat × MsgData)
  last_cleanup_time : Option Nat
  logs : List LogRecord
deriving DecidableEq, Repr

/-- The state at program start: empty dictionary, no recorded cleanup
time, empty logs. -/
def initState : LoggerState := ⟨[], none, []⟩

/-- Dictionary read: `message_history.get(k)` / `k in message_history`. -/
def alookup : List (Nat × MsgData) → Nat → Option MsgData
  | [], _ => none
  | (k1, v) :: t, k => if k1 = k then some v else alookup t k

/-- Dictionary write: `message_history[k] = v` (replace the entry with key
`k`, or append a new one). -/
def ainsert : List (Nat × MsgData) → Nat → MsgData → List (Nat × MsgData)
  | [], k, v => [(k, v)]
  | (k1, v1) :: t, k, v => if k1 = k then (k, v) :: t else (k1, v1) :: ainsert t k v

/-- Dictionary removal: the mutation part of `message_history.pop(k, None)`
(removes the first entry with key `k`, if any). -/
def aremove : List (Nat × MsgData) → Nat → List (Nat × MsgData)
  | [], _ => []
  | (k1, v1) :: t, k => if k1 = k then t else (k1, v1) :: aremove t k

/-! ## Retention sweep (`cleanup_old_messages`, src/handlers.py lines 7-61) -/

/-- The per-entry decision of the sweep loop: an entry is scheduled for
removal when it is a tuple of length at least 3 (first branch) or at least
2 (backward-compatibility branch), its date string parses, and the parsed
date is strictly older than `five_hours_ago`; unparseable dates and
non-tuple values are kept. -/
def sweep_removes (five_hours_ago : Nat) : MsgData → Bool
  | .tuple3 date _ _ =>
    match parseTime date with
    | some d => decide (d < five_hours_ago)
    | none => false
  | .tuple2 date _ =>
    match parseTime date with
    | some d => decide (d < five_hours_ago)
    | none => false
  | .other _ => false

/-- The scan/removal pass of `cleanup_old_messages`: collect the ids of the
entries to remove, then pop each of them, and record the current time as
the last cleanup time (the source sets `last_cleanup_time` just before the
scan).  The `logger.info` status lines go to the process logger, not to a
log sink, and are not recorded. -/
def cleanup_run (now : Nat) (s : LoggerState) : LoggerState :=
  let five_hours_ago := now - 18000
  let messages_to_remove :=
    (s.message_history.filter (fun p => sweep_removes five_hours_ago p.2)).map Prod.fst
  { s with
    message_history := messages_to_remove.foldl aremove s.message_history,
    last_cleanup_time := some now }

/-- `cleanup_old_messages`: a call less than 3600 seconds after the last
recorded cleanup returns without doing anything; otherwise the
scan/removal pass runs.  (Python computes
`(current_time - last).total_seconds() < 3600` on possibly unordered
datetimes; with `Nat` truncated subtraction a `now` before `last` also
yields a no-op, matching the negative-difference case.) -/
def cleanup_old_messages (now : Nat) (s : LoggerState) : LoggerState :=
  match s.last_cleanup_time with
  | some t => if now - t < 3600 then s else cleanup_run now s
  | none => cleanup_run now s

/-! ## Events

Telethon event objects, reduced to the attributes the handlers read.
`Option` on `chat_id`, `deleted_id`, `message` and `RawMessage.id` means a
missing attribute: the source reads these without `hasattr`, so a missing
one raises `AttributeError` inside the `try` block.  `chat_title` folds the
guarded access `event.chat.title if hasattr(event.chat, 'title') else ...`
into one optional field, and likewise `text` and the sender fields fold
their `hasattr`/truthiness idioms (a present-but-`None` Python attribute is
modelled as absent).
-/

/-- The sender attributes read by `handle_received_message`. -/
structure Sender where
  username : Option String
  first_name : Option String
  last_name : Option String
deriving DecidableEq, Repr

/-- The message attributes read by the received and edited handlers. -/
structure RawMessage where
  id : Option Nat
  text : Option String
  sender : Option Sender
deriving DecidableEq, Repr

/-- A `NewMessage` event. -/
structure NewMessageEvent where
  chat_id : Option Int
  message : Option RawMessage
  chat_title : Option String
deriving DecidableEq, Repr

/-- A `MessageEdited` event. -/
structure EditedMessageEvent where
  chat_id : Option Int
  message : Option RawMessage
  chat_title : Option String
deriving DecidableEq, Repr

/-- A `MessageDeleted` event. -/
structure DeletedMessageEvent where
  deleted_id : Option Nat
  chat_id : Option Int
  chat_title : Option String
deriving DecidableEq, Repr

/-- A well-formed `NewMessage` event: all unguarded attributes present. -/
def mkNew (c : Int) (mid : Nat) (txt : Option String) (snd : Option Sender)
    (title : Option String) : NewMessageEvent :=
  ⟨some c, some ⟨some mid, txt, snd⟩, title⟩

/-- A well-formed `MessageEdited` event. -/
def mkEdit (c : Int) (mid : Nat) (txt : Option String) (title : Option String) :
    EditedMessageEvent :=
  ⟨some c, some ⟨some mid, txt, none⟩, title⟩

/-- A well-formed `MessageDeleted` event. -/
def mkDel (c : Int) (mid : Nat) (title : Option String) : DeletedMessageEvent :=
  ⟨some mid, some c, title⟩

/-! ## Shared extraction helpers -/

/-- The fallback chain for the sender display name (src/handlers.py lines
113-116): the first name, with the last name appended when present and
non-empty. -/
def extract_from_name (snd : Sender) : Option String :=
  match snd.first_name with
  | none => none
  | some f =>
    match snd.last_name with
    | some l => if l ≠ "" then some (f ++ " " ++ l) else some f
    | none => some f

/-- The username extraction of `handle_received_message` (lines 109-116):
the username when present and non-empty (Python truthiness), else the
first/last-name fallback, else `None`; also `None` when there is no
sender. -/
def extract_username : Option Sender → Option String
  | none => none
  | some snd =>
    match snd.username with
    | some u => if u ≠ "" then some u else extract_from_name snd
    | none => extract_from_name snd

/-- The text extraction applied to cached values in the deleted handler
(line 85) and the edited handler (line 151):
`data[1] if isinstance(data, tuple) and len(data) >= 2 else data`. -/
def data_text : MsgData → String
  | .tuple3 _ t _ => t
  | .tuple2 _ t => t
  | .other v => v

/-- The username extraction applied to cached values in the deleted
handler (line 86) and the edited handler (line 157):
`data[2] if isinstance(data, tuple) and len(data) >= 3 else None`. -/
def data_username : MsgData → Option String
  | .tuple3 _ _ u => u
  | .tuple2 _ _ => none
  | .other _ => none

/-! ## Handlers (src/handlers.py lines 64-164)

Each handler is the total wrapper produced by its `try`/`except` block
around a fallible body.  The bodies translate the `try` blocks statement by
statement; an early `return` is `.ok s` and an uncaught Python exception is
`.error msg`.
-/

/-- The `try` block of `handle_deleted_message` (lines 66-88). -/
def handle_deleted_body (allowed : List Int) (now : Nat) (ev : DeletedMessageEvent)
    (s : LoggerState) : Except String LoggerState :=
  match ev.deleted_id with
  | none => .error "no attribute deleted_id"
  | some message_id =>
    match ev.chat_id with
    | none => .error "no attribute chat_id"
    | some chat_id =>
      if allowed ≠ [] ∧ chat_id ∉ allowed then .ok s
      else
        let chat_title := ev.chat_title.getD "Private Chat"
        let deleted_at := fmtTime now
        match alookup s.message_history message_id with
        | none => .ok s
        | some message_data =>
          let s1 : LoggerState :=
            { s with message_history := aremove s.message_history message_id }
          let message_text := data_text message_data
          let username := data_username message_data
          .ok { s1 with logs := s1.logs ++
            [.deleted chat_id chat_title message_id deleted_at username message_text] }

/-- `handle_deleted_message` including its `except` clause (lines 89-90). -/
def handle_deleted_message (allowed : List Int) (now : Nat) (ev : DeletedMessageEvent)
    (s : LoggerState) : LoggerState :=
  match handle_deleted_body allowed now ev s with
  | .ok s1 => s1
  | .error e =>
    { s with logs := s.logs ++ [.error ("Error in handle_deleted_message: " ++ e)] }

/-- The `try` block of `handle_received_message` (lines 95-125). -/
def handle_received_body (allowed : List Int) (now : Nat) (ev : NewMessageEvent)
    (s : LoggerState) : Except String LoggerState :=
  match ev.chat_id with
  | none => .error "no attribute chat_id"
  | some chat_id =>
    if allowed ≠ [] ∧ chat_id ∉ allowed then .ok s
    else
      let chat_title := ev.chat_title.getD "Private Chat"
      match ev.message with
      | none => .error "no attribute message"
      | some msg =>
        match msg.id with
        | none => .error "no attribute id"
        | some message_id =>
          let message_text := msg.text.getD "No text content"
          let received_at := fmtTime now
          let username := extract_username msg.sender
          let s1 := cleanup_old_messages now s
          let h2 := ainsert s1.message_history message_id
            (.tuple3 received_at message_text username)
          let s2 := { s1 with message_history := h2 }
          let rec1 := LogRecord.received chat_id chat_title message_id received_at
            username message_text
          .ok { s2 with logs := s2.logs ++ [rec1] }

/-- `handle_received_message` including its `except` clause (lines 126-127). -/
def handle_received_message (allowed : List Int) (now : Nat) (ev : NewMessageEvent)
    (s : LoggerState) : LoggerState :=
  match handle_received_body allowed now ev s with
  | .ok s1 => s1
  | .error e =>
    { s with logs := s.logs ++ [.error ("Error in handle_received_message: " ++ e)] }

/-- The `try` block of `handle_edited_message` (lines 132-162).  The
source guards with `if message_id not in message_history: return` and then
reads `message_history.get(message_id, default)`; since the key is present
the default is dead, so both are one `alookup` match here. -/
def handle_edited_body (allowed : List Int) (now : Nat) (ev : EditedMessageEvent)
    (s : LoggerState) : Except String LoggerState :=
  match ev.message with
  | none => .error "no attribute message"
  | some msg =>
    match msg.id with
    | none => .error "no attribute id"
    | some message_id =>
      match ev.chat_id with
      | none => .error "no attribute chat_id"
      | some chat_id =>
        if allowed ≠ [] ∧ chat_id ∉ allowed then .ok s
        else
          let chat_title := ev.chat_title.getD "Private Chat"
          let new_message_text := msg.text.getD "No text content"
          let edited_at := fmtTime now
          match alookup s.message_history message_id with
          | none => .ok s
          | some old_message_data =>
            let old_message_text := data_text old_message_data
            if old_message_text = new_message_text then .ok s
            else
              let old_username := data_username old_message_data
              let h1 := ainsert s.message_history message_id
                (.tuple3 edited_at new_message_text old_username)
              let s1 := { s with message_history := h1 }
              let rec1 := LogRecord.edited chat_id chat_title message_id edited_at
                old_username old_message_text new_message_text
              .ok { s1 with logs := s1.logs ++ [rec1] }

/-- `handle_edited_message` including its `except` clause (lines 163-164). -/
def handle_edited_message (allowed : List Int) (now : Nat) (ev : EditedMessageEvent)
    (s : LoggerState) : LoggerState :=
  match handle_edited_body allowed now ev s with
  | .ok s1 => s1
  | .error e =>
    { s with logs := s.logs ++ [.error ("Error in handle_edited_message: " ++ e)] }

/-! ## Traces of handler invocations -/

/-- One invocation of a handler (or of the sweep directly) at a given
instant. -/
inductive Op where
  | newMsg (now : Nat) (ev : NewMessageEvent)
  | editMsg (now : Nat) (ev : EditedMessageEvent)
  | delMsg (now : Nat) (ev : DeletedMessageEvent)
  | sweep (now : Nat)
deriving Repr

/-- Dispatch one invocation. -/
def step (allowed : List Int) (s : LoggerState) : Op → LoggerState
  | .newMsg now ev => handle_received_message allowed now ev s
  | .editMsg now ev => handle_edited_message allowed now ev s
  | .delMsg now ev => handle_deleted_message allowed now ev s
  | .sweep now => cleanup_old_messages now s

/-- Run a sequence of invocations. -/
def run (allowed : List Int) (ops : List Op) (s : LoggerState) : LoggerState :=
  ops.foldl (step allowed) s

/-- The allow-list admits chat `c`: the list is empty (observe every chat)
or contains `c`. -/
def chatOk (allowed : List Int) (c : Int) : Prop :=
  allowed = [] ∨ c ∈ allowed

instance (allowed : List Int) (c : Int) : Decidable (chatOk allowed c) := by
  unfold chatOk; infer_instance

/-! ## Statement-side definitions for traces (claim C1) -/

/-- The data of one well-formed edit invocation for a fixed message id. -/
structure EditIn where
  now : Nat
  chat : Int
  text : Option String
  title : Option String
deriving DecidableEq, Repr

/-- The text the edited handler works with: the text attribute when
present, else the literal fallback. -/
def effText (e : EditIn) : String := e.text.getD "No text content"

/-- Invoke the edited handler once per element of `edits`, always for
message id `mid`. -/
def applyEdits (allowed : List Int) (mid : Nat) (edits : List EditIn)
    (s : LoggerState) : LoggerState :=
  edits.foldl
    (fun s2 e => handle_edited_message allowed e.now (mkEdit e.chat mid e.text e.title) s2) s

/-- The text of the most recent text-changing edit, or the original text
when no edit changed it: fold the edits, replacing the current text only
when the incoming text differs. -/
def latest_text (t0 : String) (edits : List EditIn) : String :=
  edits.foldl (fun cur e => if cur = effText e then cur else effText e) t0

/-- The date field of a cached value, when the value is a tuple of length
at least 2 (used to state the retention property, claim C3). -/
def data_date : MsgData → Option String
  | .tuple3 d _ _ => some d
  | .tuple2 d _ => some d
  | .other _ => none

/-- The shape invariant of the cache (claim C7): every stored value is a
3-tuple whose first component is a timestamp string produced by the
`%Y-%m-%d %H:%M:%S` formatter at some instant. -/
def goodHistory (h : List (Nat × MsgData)) : Prop :=
  ∀ p ∈ h, ∃ t txt u, p.2 = MsgData.tuple3 (fmtTime t) txt u

/-! ## Configuration validation (src/config.py lines 9-99, claim C8)

The environment is embedded as one record of optional variables
(`os.getenv` returns `None` for an unset variable).  Python `int(...)` is
`pyInt` (strip whitespace, optional sign, decimal digits; underscore
separators between digits, accepted by Python, are not modelled — no
theorem below depends on them), `str.strip()` is `pyStrip` (ASCII
whitespace), `str.isdigit()` is `pyIsDigit`.  `validate_config` appends
error strings to one list block by block, each block reading a single
variable, so it is the concatenation of one checker per variable, each a
line-by-line translation of its block.
-/

/-- The environment variables read by `validate_config`. -/
structure Env where
  api_id : Option String
  api_hash : Option String
  phone_number : Option String
  allowed_chat_ids : Option String
  dc_id : Option String
  dc_port : Option String
  dc_ip : Option String
deriving DecidableEq, Repr

/-- Python whitespace test for `str.strip()` (ASCII subset). -/
def pyIsSpace (c : Char) : Bool :=
  c.toNat = 32 || c.toNat = 9 || c.toNat = 10 || c.toNat = 13 ||
    c.toNat = 11 || c.toNat = 12

/-- Drop leading whitespace characters. -/
def dropLeadingWs : List Char → List Char
  | [] => []
  | c :: t => if pyIsSpace c then dropLeadingWs t else c :: t

/-- `str.strip()` on the character list. -/
def pyStripList (l : List Char) : List Char :=
  dropLeadingWs (dropLeadingWs l.reverse).reverse

/-- `str.strip()`. -/
def pyStrip (s : String) : String := ⟨pyStripList s.data⟩

/-- `int(...)` applied to already-stripped characters: an optional sign
followed by at least one decimal digit. -/
def pyIntChars : List Char → Option Int
  | [] => none
  | c :: t =>
    if c = '-' then (digitsVal t).map (fun n => -(n : Int))
    else if c = '+' then (digitsVal t).map (fun n => (n : Int))
    else (digitsVal (c :: t)).map (fun n => (n : Int))

/-- Python `int(str)` conversion; `none` models `ValueError`. -/
def pyInt (s : String) : Option Int := pyIntChars (pyStripList s.data)

/-- `str.isdigit()` (decimal-digit subset): non-empty and all digits. -/
def pyIsDigit (s : String) : Bool :=
  !s.data.isEmpty && s.data.all Char.isDigit

/-- Does the string start with the given character (models
`str.startswith` for a one-character argument)? -/
def startsWithChar (c : Char) (s : String) : Bool :=
  match s.data with
  | [] => false
  | c1 :: _ => c1 = c

/-- The string without its first character (models `s[1:]`). -/
def dropFirst (s : String) : String := ⟨s.data.drop 1⟩

/-- The API_ID block (config.py lines 13-23). -/
def checkApiId (env : Env) : List String :=
  match env.api_id with
  | none => ["API_ID is not set in environment variables"]
  | some s =>
    if s = "" then ["API_ID is not set in environment variables"]
    else
      match pyInt s with
      | none => ["API_ID must be a valid integer"]
      | some n => if n ≤ 0 then ["API_ID must be a positive integer"] else []

/-- The API_HASH block (lines 25-30); note the length test applies to the
raw, unstripped value. -/
def checkApiHash (env : Env) : List String :=
  match env.api_hash with
  | none => ["API_HASH is not set or is empty"]
  | some s =>
    if s = "" ∨ pyStrip s = "" then ["API_HASH is not set or is empty"]
    else if s.length ≠ 32 then ["API_HASH must be 32 characters long"]
    else []

/-- The PHONE_NUMBER block (lines 32-44). -/
def checkPhone (env : Env) : List String :=
  match env.phone_number with
  | none => ["PHONE_NUMBER is not set or is empty"]
  | some s =>
    if s = "" ∨ pyStrip s = "" then ["PHONE_NUMBER is not set or is empty"]
    else
      let phone := pyStrip s
      if ¬ startsWithChar '+' phone then
        ["PHONE_NUMBER must start with '+' (e.g., +1234567890)"]
      else if phone.length < 9 then ["PHONE_NUMBER is too short"]
      else if ¬ pyIsDigit (dropFirst phone) then
        ["PHONE_NUMBER must contain only digits after '+'"]
      else []

/-- The loop of the ALLOWED_CHAT_IDS block (lines 49-55): one error per
comma-separated part that is non-empty after stripping and not an
integer. -/
def checkChatIdParts : List (List Char) → List String
  | [] => []
  | p :: rest =>
    let q := pyStripList p
    if q.isEmpty then checkChatIdParts rest
    else
      match pyIntChars q with
      | some _ => checkChatIdParts rest
      | none =>
        ("ALLOWED_CHAT_IDS contains invalid value: " ++ String.mk q ++
          " (must be integer)") :: checkChatIdParts rest

/-- The ALLOWED_CHAT_IDS block (lines 46-55). -/
def checkAllowedChatIds (env : Env) : List String :=
  let a := env.allowed_chat_ids.getD ""
  if a = "" then [] else checkChatIdParts (splitOnChar ',' a.data)

/-- The DC_ID block (lines 57-64); the variable defaults to "2". -/
def checkDcId (env : Env) : List String :=
  match pyInt (env.dc_id.getD "2") with
  | none => ["DC_ID must be a valid integer"]
  | some n => if n < 1 ∨ n > 5 then ["DC_ID must be between 1 and 5"] else []

/-- The DC_PORT block (lines 66-71); the variable defaults to "443". -/
def checkDcPort (env : Env) : List String :=
  match pyInt (env.dc_port.getD "443") with
  | none => ["DC_PORT must be a valid integer"]
  | some _ => []

/-- The dotted-parts loop of the DC_IP block (lines 83-89): the `try`
wraps the whole `for`, so the first non-integer part appends one error and
aborts the loop, while an out-of-range part appends one error and
continues. -/
def checkIpParts : List (List Char) → List String
  | [] => []
  | p :: rest =>
    match pyInt (String.mk p) with
    | none => ["DC_IP must be a valid IPv4 address"]
    | some n =>
      (if n < 0 ∨ n > 255 then ["DC_IP must be a valid IPv4 address"] else []) ++
        checkIpParts rest

/-- The DC_IP block (lines 73-89); the variable defaults to the Telegram
production address. -/
def checkDcIp (env : Env) : List String :=
  let s := env.dc_ip.getD "149.154.167.50"
  if s = "" ∨ pyStrip s = "" then ["DC_IP is not set or is empty"]
  else
    let parts := splitOnChar '.' (pyStrip s).data
    if parts.length ≠ 4 then ["DC_IP must be a valid IPv4 address"]
    else checkIpParts parts

/-- `validate_config` (config.py lines 9-99): the collected error list.
The blocks read disjoint variables and append to `errors` in order, so
the list is the concatenation of the per-block checkers. -/
def validate_config (env : Env) : List String :=
  checkApiId env ++ checkApiHash env ++ checkPhone env ++
    checkAllowedChatIds env ++ checkDcId env ++ checkDcPort env ++ checkDcIp env

/-- The observable outcome of startup: `sys.exit(1)` with the reported
error list, or validation passed and the program proceeds (only after
this point does main.py construct the client and connect). -/
inductive StartupResult where
  | exited (errors : List String)
  | proceeded
deriving DecidableEq, Repr

/-- Startup: validate, and exit with every collected error before any
connection when there is at least one. -/
def startup (env : Env) : StartupResult :=
  if validate_config env = [] then .proceeded else .exited (validate_config env)

/-! ## Basic lemmas about the dictionary operations -/

theorem chatOk_filter {allowed : List Int} {c : Int} (h : chatOk allowed c) :
    ¬(allowed ≠ [] ∧ c ∉ allowed) := by
  rcases h with h | h
  · exact fun hc => hc.1 h
  · exact fun hc => hc.2 h

theorem alookup_ainsert_self (h : List (Nat × MsgData)) (k : Nat) (v : MsgData) :
    alookup (ainsert h k v) k = some v := by
  induction h with
  | nil => simp [ainsert, alookup]
  | cons p t ih =>
    obtain ⟨k1, v1⟩ := p
    by_cases hk : k1 = k
    · simp [ainsert, hk, alookup]
    · simp [ainsert, hk, alookup, ih]

theorem mem_ainsert {p : Nat × MsgData} {h : List (Nat × MsgData)} {k : Nat} {v : MsgData}
    (hp : p ∈ ainsert h k v) : p ∈ h ∨ p = (k, v) := by
  induction h with
  | nil => simp [ainsert] at hp; simp [hp]
  | cons q t ih =>
    obtain ⟨k1, v1⟩ := q
    by_cases hk : k1 = k
    · simp [ainsert, hk] at hp
      rcases hp with hp | hp
      · exact Or.inr (by simp [hp])
      · exact Or.inl (List.mem_cons_of_mem _ hp)
    · simp [ainsert, hk] at hp
      rcases hp with hp | hp
      · exact Or.inl (by simp [hp])
      · rcases ih hp with h2 | h2
        · exact Or.inl (List.mem_cons_of_mem _ h2)
        · exact Or.inr h2

theorem mem_aremove {p : Nat × MsgData} {h : List (Nat × MsgData)} {k : Nat}
    (hp : p ∈ aremove h k) : p ∈ h := by
  induction h with
  | nil => simp [aremove] at hp
  | cons q t ih =>
    obtain ⟨k1, v1⟩ := q
    by_cases hk : k1 = k
    · simp [aremove, hk] at hp
      exact List.mem_cons_of_mem _ hp
    · simp [aremove, hk] at hp
      rcases hp with hp | hp
      · simp [hp]
      · exact List.mem_cons_of_mem _ (ih hp)

theorem mem_keys_ainsert {a : Nat} {h : List (Nat × MsgData)} {k : Nat} {v : MsgData}
    (ha : a ∈ (ainsert h k v).map Prod.fst) : a ∈ h.map Prod.fst ∨ a = k := by
  rcases List.mem_map.1 ha with ⟨p, hp, hpa⟩
  rcases mem_ainsert hp with h2 | h2
  · exact Or.inl (hpa ▸ List.mem_map_of_mem Prod.fst h2)
  · subst h2; exact Or.inr hpa.symm

theorem nodup_ainsert {h : List (Nat × MsgData)} {k : Nat} {v : MsgData}
    (hn : (h.map Prod.fst).Nodup) : ((ainsert h k v).map Prod.fst).Nodup := by
  induction h with
  | nil => simp [ainsert]
  | cons q t ih =>
    obtain ⟨k1, v1⟩ := q
    simp only [List.map_cons, List.nodup_cons] at hn
    by_cases hk : k1 = k
    · subst hk
      simpa [ainsert, List.nodup_cons] using hn
    · simp only [ainsert, hk, if_false, List.map_cons, List.nodup_cons]
      refine ⟨fun hmem => ?_, ih hn.2⟩
      rcases mem_keys_ainsert hmem with h2 | h2
      · exact hn.1 h2
      · exact hk h2

theorem aremove_sublist (h : List (Nat × MsgData)) (k : Nat) :
    (aremove h k).Sublist h := by
  induction h with
  | nil => simp [aremove]
  | cons q t ih =>
    obtain ⟨k1, v1⟩ := q
    by_cases hk : k1 = k
    · simp only [aremove, if_pos hk]
      exact List.sublist_cons_self _ _
    · simpa [aremove, hk] using ih.cons₂ (k1, v1)

theorem nodup_aremove {h : List (Nat × MsgData)} {k : Nat}
    (hn : (h.map Prod.fst).Nodup) : ((aremove h k).map Prod.fst).Nodup :=
  hn.sublist ((aremove_sublist h k).map Prod.fst)

theorem aremove_keys_ne {p : Nat × MsgData} {h : List (Nat × MsgData)} {k : Nat}
    (hn : (h.map Prod.fst).Nodup) (hp : p ∈ aremove h k) : p.1 ≠ k := by
  induction h with
  | nil => simp [aremove] at hp
  | cons q t ih =>
    obtain ⟨k1, v1⟩ := q
    simp only [List.map_cons, List.nodup_cons] at hn
    by_cases hk : k1 = k
    · subst hk
      simp only [aremove, if_pos rfl] at hp
      intro hpk
      exact hn.1 (hpk ▸ List.mem_map_of_mem Prod.fst hp)
    · simp only [aremove, hk, if_false, List.mem_cons] at hp
      rcases hp with hp | hp
      · subst hp; exact hk
      · exact ih hn.2 hp

theorem mem_foldl_aremove {p : Nat × MsgData} {ids : List Nat} :
    ∀ {h : List (Nat × MsgData)}, p ∈ ids.foldl aremove h → p ∈ h := by
  induction ids with
  | nil => intro h hp; exact hp
  | cons i is ih =>
    intro h hp
    exact mem_aremove (ih hp)

theorem nodup_foldl_aremove {ids : List Nat} :
    ∀ {h : List (Nat × MsgData)}, (h.map Prod.fst).Nodup →
      ((ids.foldl aremove h).map Prod.fst).Nodup := by
  induction ids with
  | nil => intro h hn; exact hn
  | cons i is ih =>
    intro h hn
    exact ih (nodup_aremove hn)

theorem foldl_aremove_not_mem {p : Nat × MsgData} {ids : List Nat} :
    ∀ {h : List (Nat × MsgData)}, (h.map Prod.fst).Nodup →
      p ∈ ids.foldl aremove h → p.1 ∉ ids := by
  induction ids with
  | nil => intro h _ _; simp
  | cons i is ih =>
    intro h hn hp
    have h1 : p ∈ aremove h i := mem_foldl_aremove hp
    have h2 : p.1 ∉ is := ih (nodup_aremove hn) hp
    simp only [List.mem_cons, not_or]
    exact ⟨aremove_keys_ne hn h1, h2⟩

theorem getLast?_append_singleton {α : Type} (l : List α) (a : α) :
    (l ++ [a]).getLast? = some a :=
  List.getLast?_concat l

/-! ## Behavior of the sweep -/

theorem cleanup_run_logs (now : Nat) (s : LoggerState) :
    (cleanup_run now s).logs = s.logs := rfl

theorem cleanup_run_last (now : Nat) (s : LoggerState) :
    (cleanup_run now s).last_cleanup_time = some now := rfl

theorem cleanup_logs (now : Nat) (s : LoggerState) :
    (cleanup_old_messages now s).logs = s.logs := by
  unfold cleanup_old_messages
  cases s.last_cleanup_time with
  | none => rfl
  | some t =>
    by_cases ht : now - t < 3600 <;> simp [ht, cleanup_run_logs]

theorem cleanup_mem {p : Nat × MsgData} {now : Nat} {s : LoggerState}
    (hp : p ∈ (cleanup_old_messages now s).message_history) :
    p ∈ s.message_history := by
  unfold cleanup_old_messages at hp
  cases hs : s.last_cleanup_time with
  | none =>
    rw [hs] at hp
    exact mem_foldl_aremove hp
  | some t =>
    rw [hs] at hp
    by_cases ht : now - t < 3600
    · simpa [ht] using hp
    · simp only [ht, if_false] at hp
      exact mem_foldl_aremove hp

theorem cleanup_nodup {now : Nat} {s : LoggerState}
    (hn : (s.message_history.map Prod.fst).Nodup) :
    ((cleanup_old_messages now s).message_history.map Prod.fst).Nodup := by
  unfold cleanup_old_messages
  cases s.last_cleanup_time with
  | none => exact nodup_foldl_aremove hn
  | some t =>
    by_cases ht : now - t < 3600
    · simpa [ht] using hn
    · simp only [ht, if_false]
      exact nodup_foldl_aremove hn

/-- Entries surviving an actual scan/removal pass were present before and
do not satisfy the removal test. -/
theorem cleanup_run_mem_not_removed {p : Nat × MsgData} {now : Nat} {s : LoggerState}
    (hn : (s.message_history.map Prod.fst).Nodup)
    (hp : p ∈ (cleanup_run now s).message_history) :
    p ∈ s.message_history ∧ sweep_removes (now - 18000) p.2 = false := by
  unfold cleanup_run at hp
  have h1 : p ∈ s.message_history := mem_foldl_aremove hp
  have h2 := foldl_aremove_not_mem hn hp
  refine ⟨h1, ?_⟩
  by_contra hrem
  have hrem2 : sweep_removes (now - 18000) p.2 = true := by
    cases hsr : sweep_removes (now - 18000) p.2
    · exact absurd hsr hrem
    · rfl
  apply h2
  apply List.mem_map_of_mem Prod.fst
  rw [List.mem_filter]
  exact ⟨h1, hrem2⟩

/-! ## Behavior of the handlers on well-formed events -/

/-- An allowed, well-formed new-message event sweeps, inserts the 3-tuple
for the current instant and appends one received record. -/
theorem received_eq {allowed : List Int} {c : Int} (now : Nat) (mid : Nat)
    (txt : Option String) (snd : Option Sender) (title : Option String)
    (s : LoggerState) (h : chatOk allowed c) :
    handle_received_message allowed now (mkNew c mid txt snd title) s =
      { message_history :=
          ainsert (cleanup_old_messages now s).message_history mid
            (.tuple3 (fmtTime now) (txt.getD "No text content") (extract_username snd)),
        last_cleanup_time := (cleanup_old_messages now s).last_cleanup_time,
        logs := s.logs ++ [.received c (title.getD "Private Chat") mid (fmtTime now)
          (extract_username snd) (txt.getD "No text content")] } := by
  have hf : ¬(allowed ≠ [] ∧ c ∉ allowed) := chatOk_filter h
  simp only [handle_received_message, handle_received_body, mkNew, if_neg hf]
  rw [← cleanup_logs now s]

/-- An allowed edit of an uncached id is a no-op. -/
theorem edited_absent {allowed : List Int} {c : Int} (now : Nat) (mid : Nat)
    (txt : Option String) (title : Option String) (s : LoggerState)
    (h : chatOk allowed c) (hl : alookup s.message_history mid = none) :
    handle_edited_message allowed now (mkEdit c mid txt title) s = s := by
  have hf : ¬(allowed ≠ [] ∧ c ∉ allowed) := chatOk_filter h
  simp only [handle_edited_message, handle_edited_body, mkEdit, if_neg hf, hl]

/-- An allowed edit with unchanged text is a no-op. -/
theorem edited_same {allowed : List Int} {c : Int} (now : Nat) (mid : Nat)
    (txt : Option String) (title : Option String) (s : LoggerState) (v : MsgData)
    (h : chatOk allowed c) (hl : alookup s.message_history mid = some v)
    (ht : data_text v = txt.getD "No text content") :
    handle_edited_message allowed now (mkEdit c mid txt title) s = s := by
  have hf : ¬(allowed ≠ [] ∧ c ∉ allowed) := chatOk_filter h
  simp only [handle_edited_message, handle_edited_body, mkEdit, if_neg hf, hl, if_pos ht]

/-- An allowed edit of a cached id with changed text overwrites the entry
with the edit instant, the new text and the previously stored username,
and appends one edited record. -/
theorem edited_diff {allowed : List Int} {c : Int} (now : Nat) (mid : Nat)
    (txt : Option String) (title : Option String) (s : LoggerState) (v : MsgData)
    (h : chatOk allowed c) (hl : alookup s.message_history mid = some v)
    (ht : data_text v ≠ txt.getD "No text content") :
    handle_edited_message allowed now (mkEdit c mid txt title) s =
      { message_history := ainsert s.message_history mid
          (.tuple3 (fmtTime now) (txt.getD "No text content") (data_username v)),
        last_cleanup_time := s.last_cleanup_time,
        logs := s.logs ++ [.edited c (title.getD "Private Chat") mid (fmtTime now)
          (data_username v) (data_text v) (txt.getD "No text content")] } := by
  have hf : ¬(allowed ≠ [] ∧ c ∉ allowed) := chatOk_filter h
  simp only [handle_edited_message, handle_edited_body, mkEdit, if_neg hf, hl, if_neg ht]

/-- An allowed delete of an uncached id is a no-op. -/
theorem deleted_absent {allowed : List Int} {c : Int} (now : Nat) (mid : Nat)
    (title : Option String) (s : LoggerState)
    (h : chatOk allowed c) (hl : alookup s.message_history mid = none) :
    handle_deleted_message allowed now (mkDel c mid title) s = s := by
  have hf : ¬(allowed ≠ [] ∧ c ∉ allowed) := chatOk_filter h
  simp only [handle_deleted_message, handle_deleted_body, mkDel, if_neg hf, hl]

/-- An allowed delete of a cached id removes the entry and appends one
deleted record carrying the cached text and username. -/
theorem deleted_present {allowed : List Int} {c : Int} (now : Nat) (mid : Nat)
    (title : Option String) (s : LoggerState) (v : MsgData)
    (h : chatOk allowed c) (hl : alookup s.message_history mid = some v) :
    handle_deleted_message allowed now (mkDel c mid title) s =
      { message_history := aremove s.message_history mid,
        last_cleanup_time := s.last_cleanup_time,
        logs := s.logs ++ [.deleted c (title.getD "Private Chat") mid (fmtTime now)
          (data_username v) (data_text v)] } := by
  have hf : ¬(allowed ≠ [] ∧ c ∉ allowed) := chatOk_filter h
  simp only [handle_deleted_message, handle_deleted_body, mkDel, if_neg hf, hl]

/-! ## New-then-edits-then-delete traces (claim C1) -/

theorem applyEdits_lookup {allowed : List Int} {mid : Nat} (edits : List EditIn) :
    ∀ (s : LoggerState) (d T : String) (U : Option String),
      (∀ e ∈ edits, chatOk allowed e.chat) →
      alookup s.message_history mid = some (.tuple3 d T U) →
      ∃ d2, alookup (applyEdits allowed mid edits s).message_history mid
        = some (.tuple3 d2 (latest_text T edits) U) := by
  induction edits with
  | nil =>
    intro s d T U _ hl
    exact ⟨d, by simpa [applyEdits, latest_text] using hl⟩
  | cons e es ih =>
    intro s d T U hok hl
    have hoke : chatOk allowed e.chat := hok e (List.mem_cons_self e es)
    have hokes : ∀ x ∈ es, chatOk allowed x.chat :=
      fun x hx => hok x (List.mem_cons_of_mem e hx)
    have hstep : applyEdits allowed mid (e :: es) s =
        applyEdits allowed mid es
          (handle_edited_message allowed e.now (mkEdit e.chat mid e.text e.title) s) := rfl
    have hlt : latest_text T (e :: es) =
        latest_text (if T = effText e then T else effText e) es := rfl
    by_cases hT : T = effText e
    · have hsame : handle_edited_message allowed e.now (mkEdit e.chat mid e.text e.title) s = s :=
        edited_same e.now mid e.text e.title s _ hoke hl (by simpa [data_text, effText] using hT)
      rw [hstep, hsame, hlt, if_pos hT]
      exact ih s d T U hokes hl
    · have hdiff := edited_diff e.now mid e.text e.title s _ hoke hl
        (by simpa [data_text, effText] using hT)
      rw [hstep, hdiff, hlt, if_neg hT]
      refine ih _ (fmtTime e.now) (effText e) U hokes ?_
      simpa [data_username, effText] using
        alookup_ainsert_self s.message_history mid
          (.tuple3 (fmtTime e.now) (e.text.getD "No text content") U)

/-- C1: for every trace consisting of one allowed well-formed new-message
event for id `mid`, then any number of allowed well-formed edit events for
`mid`, then one allowed well-formed delete event for `mid`, the deleted log
record (the last record emitted) carries the text of the most recent
text-changing edit (the original text when no edit changed it) and the
sender label captured by the new-message handler. -/
theorem c1_delete_reports_latest_text_and_creation_sender
    (allowed : List Int) (c0 : Int) (mid : Nat) (txt0 : Option String)
    (snd : Option Sender) (title0 : Option String) (t0 : Nat)
    (edits : List EditIn) (cd : Int) (td : Nat) (titled : Option String)
    (s0 : LoggerState)
    (h0 : chatOk allowed c0) (he : ∀ e ∈ edits, chatOk allowed e.chat)
    (hd : chatOk allowed cd) :
    (handle_deleted_message allowed td (mkDel cd mid titled)
      (applyEdits allowed mid edits
        (handle_received_message allowed t0 (mkNew c0 mid txt0 snd title0) s0))).logs.getLast?
    = some (.deleted cd (titled.getD "Private Chat") mid (fmtTime td)
        (extract_username snd) (latest_text (txt0.getD "No text content") edits)) := by
  rw [received_eq t0 mid txt0 snd title0 s0 h0]
  set s1 : LoggerState :=
    { message_history :=
        ainsert (cleanup_old_messages t0 s0).message_history mid
          (.tuple3 (fmtTime t0) (txt0.getD "No text content") (extract_username snd)),
      last_cleanup_time := (cleanup_old_messages t0 s0).last_cleanup_time,
      logs := s0.logs ++ [.received c0 (title0.getD "Private Chat") mid (fmtTime t0)
        (extract_username snd) (txt0.getD "No text content")] } with hs1
  have hl1 : alookup s1.message_history mid =
      some (.tuple3 (fmtTime t0) (txt0.getD "No text content") (extract_username snd)) := by
    rw [hs1]
    exact alookup_ainsert_self _ _ _
  obtain ⟨d2, hl2⟩ := applyEdits_lookup edits s1 _ _ _ he hl1
  rw [deleted_present td mid titled _ _ hd hl2]
  simp only [data_text, data_username]
  exact getLast?_append_singleton _ _

/-- C1 witness: a concrete new-edit-delete trace in which the deleted
record carries the edited text and the creation-time sender label. -/
theorem c1_witness :
    (handle_deleted_message [] 20 (mkDel 7 100 none)
      (applyEdits [] 100 [⟨10, 7, some "hi there", none⟩]
        (handle_received_message [] 5 (mkNew 7 100 (some "hi") none none) initState))).logs.getLast?
    = some (.deleted 7 "Private Chat" 100 (fmtTime 20) none "hi there") :=
  c1_delete_reports_latest_text_and_creation_sender [] 7 100 (some "hi") none none 5
    [⟨10, 7, some "hi there", none⟩] 7 20 none initState (by decide) (by decide) (by decide)

/-! ## Claim C2: what an edit does to the stored timestamp -/

/-- C2 counterexample: insert id 100 at instant 0 and edit it to different
text at instant 10.  The claim says the stored `received_at` is unchanged
by the edit; in fact the stored timestamp becomes the edit instant, which
differs from the insertion instant. -/
theorem c2_counterexample_edit_overwrites_timestamp :
    alookup (handle_received_message [] 0 (mkNew 1 100 (some "hi") none none)
        initState).message_history 100
      = some (.tuple3 (fmtTime 0) "hi" none)
    ∧ alookup (handle_edited_message [] 10 (mkEdit 1 100 (some "bye") none)
        (handle_received_message [] 0 (mkNew 1 100 (some "hi") none none)
          initState)).message_history 100
      = some (.tuple3 (fmtTime 10) "bye" none)
    ∧ fmtTime 10 ≠ fmtTime 0 := by
  refine ⟨by decide, by decide, by decide⟩

/-- C2 amended: the timestamp of a cached entry is set at insertion by the
new-message handler; an edit event that changes the text updates the
stored text, overwrites the stored timestamp with the edit instant, and
preserves the stored sender label. -/
theorem c2_amended_edit_updates_text_and_timestamp :
    (∀ (allowed : List Int) (now : Nat) (c : Int) (mid : Nat) (txt : Option String)
        (snd : Option Sender) (title : Option String) (s : LoggerState),
      chatOk allowed c →
      alookup (handle_received_message allowed now
          (mkNew c mid txt snd title) s).message_history mid
        = some (.tuple3 (fmtTime now) (txt.getD "No text content") (extract_username snd)))
    ∧ (∀ (allowed : List Int) (now : Nat) (c : Int) (mid : Nat) (txt : Option String)
        (title : Option String) (s : LoggerState) (d T : String) (U : Option String),
      chatOk allowed c →
      alookup s.message_history mid = some (.tuple3 d T U) →
      T ≠ txt.getD "No text content" →
      alookup (handle_edited_message allowed now
          (mkEdit c mid txt title) s).message_history mid
        = some (.tuple3 (fmtTime now) (txt.getD "No text content") U)) := by
  constructor
  · intro allowed now c mid txt snd title s h
    rw [received_eq now mid txt snd title s h]
    exact alookup_ainsert_self _ _ _
  · intro allowed now c mid txt title s d T U h hl hne
    rw [edited_diff now mid txt title s _ h hl (by simpa [data_text] using hne)]
    simpa [data_username] using
      alookup_ainsert_self s.message_history mid
        (.tuple3 (fmtTime now) (txt.getD "No text content") U)

/-- C2 amended witness: concrete insert and concrete text-changing edit. -/
theorem c2_amended_witness :
    alookup (handle_received_message [] 3 (mkNew 1 100 (some "a") none none)
        initState).message_history 100
      = some (.tuple3 (fmtTime 3) "a" none)
    ∧ alookup (handle_edited_message [] 7 (mkEdit 1 100 (some "b") none)
        ⟨[(100, .tuple3 "x" "a" (some "u"))], none, []⟩).message_history 100
      = some (.tuple3 (fmtTime 7) "b" (some "u")) :=
  ⟨c2_amended_edit_updates_text_and_timestamp.1 [] 3 1 100 (some "a") none none
      initState (by decide),
   c2_amended_edit_updates_text_and_timestamp.2 [] 7 1 100 (some "b") none
      ⟨[(100, .tuple3 "x" "a" (some "u"))], none, []⟩ "x" "a" (some "u")
      (by decide) (by decide) (by decide)⟩

/-! ## Claim C4: no-op cases of the edit and delete handlers -/

/-- C4: an allowed edit to identical text, an allowed edit of an uncached
id, and an allowed delete of an uncached id each return the state
entirely unchanged: no log record, no error record, no cache change (in
particular the stored timestamp of every entry is untouched). -/
theorem c4_noop_edit_and_delete_cases :
    (∀ (allowed : List Int) (now : Nat) (c : Int) (mid : Nat) (txt : Option String)
        (title : Option String) (s : LoggerState) (v : MsgData),
      chatOk allowed c →
      alookup s.message_history mid = some v →
      data_text v = txt.getD "No text content" →
      handle_edited_message allowed now (mkEdit c mid txt title) s = s)
    ∧ (∀ (allowed : List Int) (now : Nat) (c : Int) (mid : Nat) (txt : Option String)
        (title : Option String) (s : LoggerState),
      chatOk allowed c →
      alookup s.message_history mid = none →
      handle_edited_message allowed now (mkEdit c mid txt title) s = s)
    ∧ (∀ (allowed : List Int) (now : Nat) (c : Int) (mid : Nat)
        (title : Option String) (s : LoggerState),
      chatOk allowed c →
      alookup s.message_history mid = none →
      handle_deleted_message allowed now (mkDel c mid title) s = s) := by
  refine ⟨?_, ?_, ?_⟩
  · intro allowed now c mid txt title s v h hl ht
    exact edited_same now mid txt title s v h hl ht
  · intro allowed now c mid txt title s h hl
    exact edited_absent now mid txt title s h hl
  · intro allowed now c mid title s h hl
    exact deleted_absent now mid title s h hl

/-- C4 witness: the three no-op cases on concrete states. -/
theorem c4_witness :
    handle_edited_message [] 9 (mkEdit 1 100 (some "a") none)
        ⟨[(100, .tuple3 "x" "a" none)], none, []⟩
      = ⟨[(100, .tuple3 "x" "a" none)], none, []⟩
    ∧ handle_edited_message [] 9 (mkEdit 1 200 (some "a") none)
        ⟨[(100, .tuple3 "x" "a" none)], none, []⟩
      = ⟨[(100, .tuple3 "x" "a" none)], none, []⟩
    ∧ handle_deleted_message [] 9 (mkDel 1 200 none)
        ⟨[(100, .tuple3 "x" "a" none)], none, []⟩
      = ⟨[(100, .tuple3 "x" "a" none)], none, []⟩ :=
  ⟨c4_noop_edit_and_delete_cases.1 [] 9 1 100 (some "a") none
      ⟨[(100, .tuple3 "x" "a" none)], none, []⟩ (.tuple3 "x" "a" none)
      (by decide) (by decide) (by decide),
   c4_noop_edit_and_delete_cases.2.1 [] 9 1 200 (some "a") none
      ⟨[(100, .tuple3 "x" "a" none)], none, []⟩ (by decide) (by decide),
   c4_noop_edit_and_delete_cases.2.2 [] 9 1 200 none
      ⟨[(100, .tuple3 "x" "a" none)], none, []⟩ (by decide) (by decide)⟩

/-! ## Claim C5: allow-list filtering -/

/-- C5: with a non-empty allow-list, a well-formed event of any of the
three kinds for a chat outside the list leaves the state entirely
unchanged (no cache read or write is observable, no record reaches any
sink); with an empty allow-list each handler behaves exactly as it does
when the chat is on the list, so every chat is processed. -/
theorem c5_allowlist_filtering :
    (∀ (allowed : List Int) (now : Nat) (c : Int) (mid : Nat) (txt : Option String)
        (snd : Option Sender) (title : Option String) (s : LoggerState),
      allowed ≠ [] → c ∉ allowed →
      handle_received_message allowed now (mkNew c mid txt snd title) s = s)
    ∧ (∀ (allowed : List Int) (now : Nat) (c : Int) (mid : Nat) (txt : Option String)
        (title : Option String) (s : LoggerState),
      allowed ≠ [] → c ∉ allowed →
      handle_edited_message allowed now (mkEdit c mid txt title) s = s)
    ∧ (∀ (allowed : List Int) (now : Nat) (c : Int) (mid : Nat)
        (title : Option String) (s : LoggerState),
      allowed ≠ [] → c ∉ allowed →
      handle_deleted_message allowed now (mkDel c mid title) s = s)
    ∧ (∀ (now : Nat) (c : Int) (mid : Nat) (txt : Option String)
        (snd : Option Sender) (title : Option String) (s : LoggerState),
      handle_received_message [] now (mkNew c mid txt snd title) s
        = handle_received_message [c] now (mkNew c mid txt snd title) s)
    ∧ (∀ (now : Nat) (c : Int) (mid : Nat) (txt : Option String)
        (title : Option String) (s : LoggerState),
      handle_edited_message [] now (mkEdit c mid txt title) s
        = handle_edited_message [c] now (mkEdit c mid txt title) s)
    ∧ (∀ (now : Nat) (c : Int) (mid : Nat) (title : Option String) (s : LoggerState),
      handle_deleted_message [] now (mkDel c mid title) s
        = handle_deleted_message [c] now (mkDel c mid title) s) := by
  have hmt : ∀ c : Int, ¬(([] : List Int) ≠ [] ∧ c ∉ ([] : List Int)) := by
    intro c hc; exact hc.1 rfl
  have hsg : ∀ c : Int, ¬(([c] : List Int) ≠ [] ∧ c ∉ ([c] : List Int)) := by
    intro c hc; exact hc.2 (List.mem_singleton_self c)
  refine ⟨?_, ?_, ?_, ?_, ?_, ?_⟩
  · intro allowed now c mid txt snd title s hne hni
    have hc : allowed ≠ [] ∧ c ∉ allowed := ⟨hne, hni⟩
    simp only [handle_received_message, handle_received_body, mkNew, if_pos hc]
  · intro allowed now c mid txt title s hne hni
    have hc : allowed ≠ [] ∧ c ∉ allowed := ⟨hne, hni⟩
    simp only [handle_edited_message, handle_edited_body, mkEdit, if_pos hc]
  · intro allowed now c mid title s hne hni
    have hc : allowed ≠ [] ∧ c ∉ allowed := ⟨hne, hni⟩
    simp only [handle_deleted_message, handle_deleted_body, mkDel, if_pos hc]
  · intro now c mid txt snd title s
    simp only [handle_received_message, handle_received_body, mkNew,
      if_neg (hmt c), if_neg (hsg c)]
  · intro now c mid txt title s
    simp only [handle_edited_message, handle_edited_body, mkEdit,
      if_neg (hmt c), if_neg (hsg c)]
  · intro now c mid title s
    simp only [handle_deleted_message, handle_deleted_body, mkDel,
      if_neg (hmt c), if_neg (hsg c)]

/-- C5 witness: a concrete disallowed event is dropped without any state
change, and a concrete event under an empty allow-list is handled exactly
as under an allow-list containing its chat. -/
theorem c5_witness :
    handle_received_message [5] 3 (mkNew 6 100 (some "a") none none) initState = initState
    ∧ handle_edited_message [5] 3 (mkEdit 6 100 (some "a") none) initState = initState
    ∧ handle_deleted_message [5] 3 (mkDel 6 100 none) initState = initState
    ∧ handle_received_message [] 3 (mkNew 6 100 (some "a") none none) initState
        = handle_received_message [6] 3 (mkNew 6 100 (some "a") none none) initState :=
  ⟨c5_allowlist_filtering.1 [5] 3 6 100 (some "a") none none initState
      (by decide) (by decide),
   c5_allowlist_filtering.2.1 [5] 3 6 100 (some "a") none initState
      (by decide) (by decide),
   c5_allowlist_filtering.2.2.1 [5] 3 6 100 none initState (by decide) (by decide),
   c5_allowlist_filtering.2.2.2.1 3 6 100 (some "a") none none initState⟩

/-! ## Claim C6: the handler boundary catches every body failure -/

/-- C6: for every event (well-formed or not) and every state, each handler
either returns the result of its body, or, when the body raises, returns
normally with the state unchanged except for exactly one record appended
to the error sink; a failure never propagates to the caller. -/
theorem c6_exceptions_stop_at_handler_boundary :
    (∀ (allowed : List Int) (now : Nat) (ev : DeletedMessageEvent) (s : LoggerState),
      (∃ s1, handle_deleted_body allowed now ev s = .ok s1
        ∧ handle_deleted_message allowed now ev s = s1)
      ∨ (∃ e, handle_deleted_body allowed now ev s = .error e
        ∧ handle_deleted_message allowed now ev s
          = { s with logs := s.logs ++ [.error ("Error in handle_deleted_message: " ++ e)] }))
    ∧ (∀ (allowed : List Int) (now : Nat) (ev : NewMessageEvent) (s : LoggerState),
      (∃ s1, handle_received_body allowed now ev s = .ok s1
        ∧ handle_received_message allowed now ev s = s1)
      ∨ (∃ e, handle_received_body allowed now ev s = .error e
        ∧ handle_received_message allowed now ev s
          = { s with logs := s.logs ++ [.error ("Error in handle_received_message: " ++ e)] }))
    ∧ (∀ (allowed : List Int) (now : Nat) (ev : EditedMessageEvent) (s : LoggerState),
      (∃ s1, handle_edited_body allowed now ev s = .ok s1
        ∧ handle_edited_message allowed now ev s = s1)
      ∨ (∃ e, handle_edited_body allowed now ev s = .error e
        ∧ handle_edited_message allowed now ev s
          = { s with logs := s.logs ++ [.error ("Error in handle_edited_message: " ++ e)] })) := by
  refine ⟨?_, ?_, ?_⟩
  · intro allowed now ev s
    cases hb : handle_deleted_body allowed now ev s with
    | ok s1 => exact Or.inl ⟨s1, rfl, by simp [handle_deleted_message, hb]⟩
    | error e => exact Or.inr ⟨e, rfl, by simp [handle_deleted_message, hb]⟩
  · intro allowed now ev s
    cases hb : handle_received_body allowed now ev s with
    | ok s1 => exact Or.inl ⟨s1, rfl, by simp [handle_received_message, hb]⟩
    | error e => exact Or.inr ⟨e, rfl, by simp [handle_received_message, hb]⟩
  · intro allowed now ev s
    cases hb : handle_edited_body allowed now ev s with
    | ok s1 => exact Or.inl ⟨s1, rfl, by simp [handle_edited_message, hb]⟩
    | error e => exact Or.inr ⟨e, rfl, by simp [handle_edited_message, hb]⟩

/-! ## Claim C3: sweep throttling and retention -/

/-- A sweep call whose cooldown test passes performs the scan/removal
pass. -/
theorem cleanup_allowed_runs {s : LoggerState} {now : Nat}
    (hallow : ∀ t0, s.last_cleanup_time = some t0 → ¬(now - t0 < 3600)) :
    cleanup_old_messages now s = cleanup_run now s := by
  unfold cleanup_old_messages
  cases hs : s.last_cleanup_time with
  | none => rfl
  | some t0 => simp [hallow t0 hs]

/-- C3: a second sweep call within 3600 seconds of a sweep that actually
ran is a complete no-op (so two calls inside the cooldown window perform
at most one scan/removal pass), and after a sweep that is allowed to run
at `now`, no surviving cache entry carries a parseable date more than
18000 seconds (5 hours) older than `now`. -/
theorem c3_sweep_cooldown_and_retention :
    (∀ (s : LoggerState) (t1 t2 : Nat),
      (∀ t0, s.last_cleanup_time = some t0 → ¬(t1 - t0 < 3600)) →
      t1 ≤ t2 → t2 - t1 < 3600 →
      cleanup_old_messages t2 (cleanup_old_messages t1 s) = cleanup_old_messages t1 s)
    ∧ (∀ (s : LoggerState) (now : Nat),
      (s.message_history.map Prod.fst).Nodup →
      (∀ t0, s.last_cleanup_time = some t0 → ¬(now - t0 < 3600)) →
      ∀ (id : Nat) (v : MsgData) (ds : String) (d : Nat),
        (id, v) ∈ (cleanup_old_messages now s).message_history →
        data_date v = some ds → parseTime ds = some d →
        ¬(d + 18000 < now)) := by
  constructor
  · intro s t1 t2 hallow hle hwin
    rw [cleanup_allowed_runs hallow]
    unfold cleanup_old_messages
    rw [cleanup_run_last]
    simp [hwin]
  · intro s now hnd hallow id v ds d hmem hdd hpt
    intro hlt
    rw [cleanup_allowed_runs hallow] at hmem
    obtain ⟨hin, hsr⟩ := cleanup_run_mem_not_removed hnd hmem
    have hdlt : d < now - 18000 := Nat.lt_sub_of_add_lt hlt
    cases v with
    | tuple3 dd tt uu =>
      simp only [data_date, Option.some.injEq] at hdd
      subst hdd
      simp [sweep_removes, hpt, hdlt] at hsr
    | tuple2 dd tt =>
      simp only [data_date, Option.some.injEq] at hdd
      subst hdd
      simp [sweep_removes, hpt, hdlt] at hsr
    | other vv => simp [data_date] at hdd

/-- C3 witness: a concrete second call inside the cooldown window changes
nothing, and a concrete fresh entry survives an actual sweep because it is
not older than the retention window. -/
theorem c3_witness :
    cleanup_old_messages 200 (cleanup_old_messages 100 initState)
      = cleanup_old_messages 100 initState
    ∧ ¬((0 : Nat) + 18000 < 10000) :=
  ⟨c3_sweep_cooldown_and_retention.1 initState 100 200
      (fun t0 h => Option.noConfusion h) (by decide) (by decide),
   c3_sweep_cooldown_and_retention.2 ⟨[(1, .tuple3 (fmtTime 0) "x" none)], none, []⟩
      10000 (by decide) (fun t0 h => Option.noConfusion h)
      1 (.tuple3 (fmtTime 0) "x" none) (fmtTime 0) 0
      (by decide) (by decide) (by decide)⟩

/-! ## Claim C7: shape of the cached values -/

theorem goodHistory_subset {h1 h2 : List (Nat × MsgData)}
    (hsub : ∀ p ∈ h2, p ∈ h1) (hg : goodHistory h1) : goodHistory h2 :=
  fun p hp => hg p (hsub p hp)

theorem goodHistory_ainsert {h : List (Nat × MsgData)} {k : Nat} {t : Nat}
    {txt : String} {u : Option String} (hg : goodHistory h) :
    goodHistory (ainsert h k (.tuple3 (fmtTime t) txt u)) := by
  intro p hp
  rcases mem_ainsert hp with h2 | h2
  · exact hg p h2
  · exact ⟨t, txt, u, by rw [h2]⟩

theorem goodHistory_cleanup {now : Nat} {s : LoggerState}
    (hg : goodHistory s.message_history) :
    goodHistory (cleanup_old_messages now s).message_history :=
  goodHistory_subset (fun _ hp => cleanup_mem hp) hg

theorem goodHistory_received (allowed : List Int) (now : Nat) (ev : NewMessageEvent)
    (s : LoggerState) (hg : goodHistory s.message_history) :
    goodHistory (handle_received_message allowed now ev s).message_history := by
  obtain ⟨cid, msg, title⟩ := ev
  cases cid with
  | none => simpa [handle_received_message, handle_received_body] using hg
  | some c =>
    by_cases hc : allowed ≠ [] ∧ c ∉ allowed
    · simpa [handle_received_message, handle_received_body, if_pos hc] using hg
    · cases msg with
      | none =>
        simpa [handle_received_message, handle_received_body, if_neg hc] using hg
      | some m =>
        obtain ⟨mi, mtxt, msnd⟩ := m
        cases mi with
        | none =>
          simpa [handle_received_message, handle_received_body, if_neg hc] using hg
        | some message_id =>
          simp only [handle_received_message, handle_received_body, if_neg hc]
          exact goodHistory_ainsert (goodHistory_cleanup hg)

theorem goodHistory_edited (allowed : List Int) (now : Nat) (ev : EditedMessageEvent)
    (s : LoggerState) (hg : goodHistory s.message_history) :
    goodHistory (handle_edited_message allowed now ev s).message_history := by
  obtain ⟨cid, msg, title⟩ := ev
  cases msg with
  | none => simpa [handle_edited_message, handle_edited_body] using hg
  | some m =>
    obtain ⟨mi, mtxt, msnd⟩ := m
    cases mi with
    | none => simpa [handle_edited_message, handle_edited_body] using hg
    | some message_id =>
      cases cid with
      | none => simpa [handle_edited_message, handle_edited_body] using hg
      | some c =>
        by_cases hc : allowed ≠ [] ∧ c ∉ allowed
        · simpa [handle_edited_message, handle_edited_body, if_pos hc] using hg
        · cases halo : alookup s.message_history message_id with
          | none =>
            simpa [handle_edited_message, handle_edited_body, if_neg hc, halo] using hg
          | some old =>
            by_cases htxt : data_text old = mtxt.getD "No text content"
            · simpa [handle_edited_message, handle_edited_body, if_neg hc, halo,
                if_pos htxt] using hg
            · simp only [handle_edited_message, handle_edited_body, if_neg hc, halo,
                if_neg htxt]
              exact goodHistory_ainsert hg

theorem goodHistory_deleted (allowed : List Int) (now : Nat) (ev : DeletedMessageEvent)
    (s : LoggerState) (hg : goodHistory s.message_history) :
    goodHistory (handle_deleted_message allowed now ev s).message_history := by
  obtain ⟨did, cid, title⟩ := ev
  cases did with
  | none => simpa [handle_deleted_message, handle_deleted_body] using hg
  | some message_id =>
    cases cid with
    | none => simpa [handle_deleted_message, handle_deleted_body] using hg
    | some c =>
      by_cases hc : allowed ≠ [] ∧ c ∉ allowed
      · simpa [handle_deleted_message, handle_deleted_body, if_pos hc] using hg
      · cases halo : alookup s.message_history message_id with
        | none =>
          simpa [handle_deleted_message, handle_deleted_body, if_neg hc, halo] using hg
        | some v =>
          simp only [handle_deleted_message, handle_deleted_body, if_neg hc, halo]
          exact goodHistory_subset (fun _ hp => mem_aremove hp) hg

theorem goodHistory_step (allowed : List Int) (s : LoggerState) (op : Op)
    (hg : goodHistory s.message_history) :
    goodHistory (step allowed s op).message_history := by
  cases op with
  | newMsg now ev => exact goodHistory_received allowed now ev s hg
  | editMsg now ev => exact goodHistory_edited allowed now ev s hg
  | delMsg now ev => exact goodHistory_deleted allowed now ev s hg
  | sweep now => exact goodHistory_cleanup hg

theorem goodHistory_run (allowed : List Int) (ops : List Op) :
    ∀ (s : LoggerState), goodHistory s.message_history →
      goodHistory (run allowed ops s).message_history := by
  induction ops with
  | nil => intro s hg; exact hg
  | cons op rest ih =>
    intro s hg
    exact ih (step allowed s op) (goodHistory_step allowed s op hg)

/-- C7: starting from the empty cache, after any sequence of handler and
sweep invocations (with arbitrary, possibly malformed events), every
value stored in `message_history` is a 3-tuple whose date is a formatted
timestamp; hence the 2-tuple sweep branch and the non-tuple fallback
extractions can never fire through the handler interface. -/
theorem c7_cache_values_are_formatted_triples (allowed : List Int) (ops : List Op)
    (p : Nat × MsgData) (hp : p ∈ (run allowed ops initState).message_history) :
    ∃ t txt u, p.2 = MsgData.tuple3 (fmtTime t) txt u :=
  goodHistory_run allowed ops initState (by intro q hq; simp [initState] at hq) p hp

/-- C7 witness: the entry left by one concrete new-message invocation has
the invariant shape. -/
theorem c7_witness :
    ∃ t txt u, ((100, MsgData.tuple3 (fmtTime 5) "hi" none) : Nat × MsgData).2
      = MsgData.tuple3 (fmtTime t) txt u :=
  c7_cache_values_are_formatted_triples []
    [Op.newMsg 5 (mkNew 1 100 (some "hi") none none)]
    (100, MsgData.tuple3 (fmtTime 5) "hi" none) (by decide)

/-! ## Claim C8: startup configuration validation -/

theorem mem_vc_apiId {env : Env} {m : String} (h : m ∈ checkApiId env) :
    m ∈ validate_config env := by
  simp only [validate_config, List.mem_append]; tauto

theorem mem_vc_apiHash {env : Env} {m : String} (h : m ∈ checkApiHash env) :
    m ∈ validate_config env := by
  simp only [validate_config, List.mem_append]; tauto

theorem mem_vc_phone {env : Env} {m : String} (h : m ∈ checkPhone env) :
    m ∈ validate_config env := by
  simp only [validate_config, List.mem_append]; tauto

theorem mem_vc_dcId {env : Env} {m : String} (h : m ∈ checkDcId env) :
    m ∈ validate_config env := by
  simp only [validate_config, List.mem_append]; tauto

theorem mem_vc_dcPort {env : Env} {m : String} (h : m ∈ checkDcPort env) :
    m ∈ validate_config env := by
  simp only [validate_config, List.mem_append]; tauto

theorem mem_vc_dcIp {env : Env} {m : String} (h : m ∈ checkDcIp env) :
    m ∈ validate_config env := by
  simp only [validate_config, List.mem_append]; tauto

theorem pyStrip_empty : pyStrip "" = "" := rfl

theorem ipErr_mem_checkIpParts : ∀ {parts : List (List Char)},
    (∃ p ∈ parts, pyInt (String.mk p) = none ∨
      ∃ n, pyInt (String.mk p) = some n ∧ (n < 0 ∨ n > 255)) →
    "DC_IP must be a valid IPv4 address" ∈ checkIpParts parts := by
  intro parts h
  induction parts with
  | nil => rcases h with ⟨p, hp, _⟩; simp at hp
  | cons p rest ih =>
    rcases h with ⟨q, hq, hbad⟩
    cases hip : pyInt (String.mk p) with
    | none => simp [checkIpParts, hip]
    | some n =>
      simp only [checkIpParts, hip]
      rcases List.mem_cons.1 hq with rfl | hqr
      · rcases hbad with hb | ⟨n2, hn2, hrange⟩
        · rw [hip] at hb; cases hb
        · rw [hip] at hn2
          injection hn2 with hh
          subst hh
          rw [if_pos hrange]
          exact List.mem_append_left _ (by simp)
      · exact List.mem_append_right _ (ih ⟨q, hqr, hbad⟩)

/-- C8: each kind of violation contributes its message to the collected
error list (so all violations are reported together, none masks another),
and startup exits with exactly that list when it is non-empty, or
proceeds when it is empty. -/
theorem c8_validation_collects_all_errors_and_gates_startup :
    (∀ (env : Env) (s : String),
      env.api_id = some s → s ≠ "" → pyInt s = none →
      "API_ID must be a valid integer" ∈ validate_config env)
    ∧ (∀ (env : Env) (s : String) (n : Int),
      env.api_id = some s → pyInt s = some n → n ≤ 0 →
      "API_ID must be a positive integer" ∈ validate_config env)
    ∧ (∀ (env : Env) (s : String),
      env.api_hash = some s → pyStrip s ≠ "" → s.length ≠ 32 →
      "API_HASH must be 32 characters long" ∈ validate_config env)
    ∧ (∀ (env : Env) (s : String),
      env.phone_number = some s → pyStrip s ≠ "" →
      startsWithChar '+' (pyStrip s) = false →
      "PHONE_NUMBER must start with '+' (e.g., +1234567890)" ∈ validate_config env)
    ∧ (∀ (env : Env) (s : String),
      env.phone_number = some s → pyStrip s ≠ "" →
      startsWithChar '+' (pyStrip s) = true → (pyStrip s).length < 9 →
      "PHONE_NUMBER is too short" ∈ validate_config env)
    ∧ (∀ (env : Env) (s : String),
      env.phone_number = some s → pyStrip s ≠ "" →
      startsWithChar '+' (pyStrip s) = true → ¬ (pyStrip s).length < 9 →
      pyIsDigit (dropFirst (pyStrip s)) = false →
      "PHONE_NUMBER must contain only digits after '+'" ∈ validate_config env)
    ∧ (∀ env : Env,
      pyInt (env.dc_id.getD "2") = none →
      "DC_ID must be a valid integer" ∈ validate_config env)
    ∧ (∀ (env : Env) (n : Int),
      pyInt (env.dc_id.getD "2") = some n → n < 1 ∨ n > 5 →
      "DC_ID must be between 1 and 5" ∈ validate_config env)
    ∧ (∀ env : Env,
      pyInt (env.dc_port.getD "443") = none →
      "DC_PORT must be a valid integer" ∈ validate_config env)
    ∧ (∀ env : Env,
      pyStrip (env.dc_ip.getD "149.154.167.50") ≠ "" →
      (splitOnChar '.' (pyStrip (env.dc_ip.getD "149.154.167.50")).data).length ≠ 4 →
      "DC_IP must be a valid IPv4 address" ∈ validate_config env)
    ∧ (∀ env : Env,
      pyStrip (env.dc_ip.getD "149.154.167.50") ≠ "" →
      (splitOnChar '.' (pyStrip (env.dc_ip.getD "149.154.167.50")).data).length = 4 →
      (∃ p ∈ splitOnChar '.' (pyStrip (env.dc_ip.getD "149.154.167.50")).data,
        pyInt (String.mk p) = none ∨
          ∃ n, pyInt (String.mk p) = some n ∧ (n < 0 ∨ n > 255)) →
      "DC_IP must be a valid IPv4 address" ∈ validate_config env)
    ∧ (∀ env : Env, validate_config env = [] → startup env = .proceeded)
    ∧ (∀ env : Env, validate_config env ≠ [] →
        startup env = .exited (validate_config env)) := by
  refine ⟨?_, ?_, ?_, ?_, ?_, ?_, ?_, ?_, ?_, ?_, ?_, ?_, ?_⟩
  · intro env s hs hne hint
    exact mem_vc_apiId (by simp [checkApiId, hs, hne, hint])
  · intro env s n hs hint hle
    have hne : s ≠ "" := by
      intro h
      subst h
      exact Option.noConfusion hint
    exact mem_vc_apiId (by simp [checkApiId, hs, hne, hint, hle])
  · intro env s hs hst hlen
    have hg : ¬(s = "" ∨ pyStrip s = "") := by
      rintro (rfl | h)
      · exact hst pyStrip_empty
      · exact hst h
    exact mem_vc_apiHash (by simp [checkApiHash, hs, hg, hlen])
  · intro env s hs hst hplus
    have hg : ¬(s = "" ∨ pyStrip s = "") := by
      rintro (rfl | h)
      · exact hst pyStrip_empty
      · exact hst h
    exact mem_vc_phone (by simp [checkPhone, hs, hg, hplus])
  · intro env s hs hst hplus hlen
    have hg : ¬(s = "" ∨ pyStrip s = "") := by
      rintro (rfl | h)
      · exact hst pyStrip_empty
      · exact hst h
    exact mem_vc_phone (by simp [checkPhone, hs, hg, hplus, hlen])
  · intro env s hs hst hplus hlen hdig
    have hg : ¬(s = "" ∨ pyStrip s = "") := by
      rintro (rfl | h)
      · exact hst pyStrip_empty
      · exact hst h
    exact mem_vc_phone (by simp [checkPhone, hs, hg, hplus, hlen, hdig])
  · intro env hint
    exact mem_vc_dcId (by simp [checkDcId, hint])
  · intro env n hint hrange
    exact mem_vc_dcId (by simp [checkDcId, hint, hrange])
  · intro env hint
    exact mem_vc_dcPort (by simp [checkDcPort, hint])
  · intro env hst hlen
    have hg : ¬(env.dc_ip.getD "149.154.167.50" = ""
        ∨ pyStrip (env.dc_ip.getD "149.154.167.50") = "") := by
      rintro (h | h)
      · rw [h] at hst; exact hst pyStrip_empty
      · exact hst h
    exact mem_vc_dcIp (by simp [checkDcIp, hg, hlen])
  · intro env hst hlen hex
    have hg : ¬(env.dc_ip.getD "149.154.167.50" = ""
        ∨ pyStrip (env.dc_ip.getD "149.154.167.50") = "") := by
      rintro (h | h)
      · rw [h] at hst; exact hst pyStrip_empty
      · exact hst h
    refine mem_vc_dcIp ?_
    simp only [checkDcIp, if_neg hg, hlen, if_neg (by simp : ¬(4 : Nat) ≠ 4)]
    exact ipErr_mem_checkIpParts hex
  · intro env h
    simp [startup, h]
  · intro env h
    simp [startup, h]

/-- C8 witness: a concrete environment with six simultaneous violations
collects all six messages and exits with the whole list. -/
theorem c8_witness :
    "API_ID must be a positive integer"
      ∈ validate_config ⟨some "0", some "abc", some "12345", none, some "9", some "x", some "1.2.3"⟩
    ∧ "API_HASH must be 32 characters long"
      ∈ validate_config ⟨some "0", some "abc", some "12345", none, some "9", some "x", some "1.2.3"⟩
    ∧ "PHONE_NUMBER must start with '+' (e.g., +1234567890)"
      ∈ validate_config ⟨some "0", some "abc", some "12345", none, some "9", some "x", some "1.2.3"⟩
    ∧ "DC_ID must be between 1 and 5"
      ∈ validate_config ⟨some "0", some "abc", some "12345", none, some "9", some "x", some "1.2.3"⟩
    ∧ "DC_PORT must be a valid integer"
      ∈ validate_config ⟨some "0", some "abc", some "12345", none, some "9", some "x", some "1.2.3"⟩
    ∧ "DC_IP must be a valid IPv4 address"
      ∈ validate_config ⟨some "0", some "abc", some "12345", none, some "9", some "x", some "1.2.3"⟩
    ∧ startup ⟨some "0", some "abc", some "12345", none, some "9", some "x", some "1.2.3"⟩
      = .exited (validate_config
          ⟨some "0", some "abc", some "12345", none, some "9", some "x", some "1.2.3"⟩) :=
  ⟨c8_validation_collects_all_errors_and_gates_startup.2.1 _ "0" 0 rfl (by decide) (by decide),
   c8_validation_collects_all_errors_and_gates_startup.2.2.1 _ "abc" rfl (by decide) (by decide),
   c8_validation_collects_all_errors_and_gates_startup.2.2.2.1 _ "12345" rfl (by decide) (by decide),
   c8_validation_collects_all_errors_and_gates_startup.2.2.2.2.2.2.2.1 _ 9 (by decide) (by decide),
   c8_validation_collects_all_errors_and_gates_startup.2.2.2.2.2.2.2.2.1 _ (by decide),
   c8_validation_collects_all_errors_and_gates_startup.2.2.2.2.2.2.2.2.2.1 _ (by decide) (by decide),
   c8_validation_collects_all_errors_and_gates_startup.2.2.2.2.2.2.2.2.2.2.2.2 _ (by decide)⟩

/-! ## Claim C9: attribute defaults and the sender label -/

/-- C9: a new-message event without a text attribute is cached and logged
with the literal `No text content`; a missing chat title is logged as
`Private Chat`; an edit event without a text attribute behaves exactly as
one whose text is the literal `No text content` (so that literal is what
gets compared against the stored text); and the cached sender label is the
non-empty username if any, else the first name with a non-empty last name
appended, else absent. -/
theorem c9_defaults_and_sender_label :
    (∀ (allowed : List Int) (now : Nat) (c : Int) (mid : Nat)
        (snd : Option Sender) (title : Option String) (s : LoggerState),
      chatOk allowed c →
      alookup (handle_received_message allowed now
          (mkNew c mid none snd title) s).message_history mid
        = some (.tuple3 (fmtTime now) "No text content" (extract_username snd))
      ∧ (handle_received_message allowed now (mkNew c mid none snd title) s).logs
        = s.logs ++ [.received c (title.getD "Private Chat") mid (fmtTime now)
            (extract_username snd) "No text content"])
    ∧ (∀ (allowed : List Int) (now : Nat) (c : Int) (mid : Nat)
        (title : Option String) (s : LoggerState),
      handle_edited_message allowed now (mkEdit c mid none title) s
        = handle_edited_message allowed now (mkEdit c mid (some "No text content") title) s)
    ∧ extract_username none = none
    ∧ (∀ (u : String) (f l : Option String), u ≠ "" →
      extract_username (some ⟨some u, f, l⟩) = some u)
    ∧ (∀ f l : String, l ≠ "" →
      extract_username (some ⟨none, some f, some l⟩) = some (f ++ " " ++ l))
    ∧ (∀ f : String, extract_username (some ⟨none, some f, none⟩) = some f)
    ∧ (∀ l : Option String, extract_username (some ⟨none, none, l⟩) = none) := by
  refine ⟨?_, ?_, rfl, ?_, ?_, ?_, ?_⟩
  · intro allowed now c mid snd title s h
    rw [received_eq now mid none snd title s h]
    constructor
    · simpa using alookup_ainsert_self (cleanup_old_messages now s).message_history mid
        (.tuple3 (fmtTime now) ((none : Option String).getD "No text content")
          (extract_username snd))
    · simp
  · intro allowed now c mid title s
    rfl
  · intro u f l hu
    simp [extract_username, hu]
  · intro f l hl
    simp [extract_username, extract_from_name, hl]
  · intro f
    simp [extract_username, extract_from_name]
  · intro l
    simp [extract_username, extract_from_name]

/-- C9 witness: concrete missing-text new message in a chat without a
title, and a concrete sender with a username. -/
theorem c9_witness :
    (alookup (handle_received_message [] 4
        (mkNew 2 50 none (some ⟨none, some "Ann", none⟩) none) initState).message_history 50
      = some (.tuple3 (fmtTime 4) "No text content"
          (extract_username (some ⟨none, some "Ann", none⟩)))
    ∧ (handle_received_message [] 4
        (mkNew 2 50 none (some ⟨none, some "Ann", none⟩) none) initState).logs
      = [] ++ [.received 2 "Private Chat" 50 (fmtTime 4)
          (extract_username (some ⟨none, some "Ann", none⟩)) "No text content"])
    ∧ extract_username (some ⟨some "bob", some "Ann", some "Lee"⟩) = some "bob" :=
  ⟨c9_defaults_and_sender_label.1 [] 4 2 50 (some ⟨none, some "Ann", none⟩) none
      initState (by decide),
   c9_defaults_and_sender_label.2.2.2.1 "bob" (some "Ann") (some "Lee") (by decide)⟩

end TgLogger
